import Mathlib

/-!
Verification of the Sui CI/CD workflow generator.

The repository holds two variants of the generator:
* `src/src/generate_ci.py` (embedded below in namespace `Src`), whose
  `generate_workflow` emits a single combined `build-and-deploy` job; and
* `src/sui-cicd-design/src/generate_ci.py` (namespace `Design`), whose
  `generate_workflow` emits the four jobs `build`, `test`, `security`, `deploy`.

Python dictionaries are embedded as insertion-ordered association lists,
filesystem state as an explicit `FS` record, and fallible operations return
`Except`.  YAML serialisation (external library `yaml.safe_dump`) is modelled
from the spec as a block-style, insertion-order-preserving dump.
-/

namespace SuiCI

/-- A YAML/JSON-like value tree: the shape of the Python dict/list/str data
assembled by the generator. -/
inductive Value where
  | str : String → Value
  | bool : Bool → Value
  | list : List Value → Value
  | dict : List (String × Value) → Value

/-- A Python dict of string keys, kept in insertion order. -/
abbrev Config := List (String × Value)

/-- Dictionary key lookup (first entry with the given key). -/
def lookup (k : String) : Config → Option Value
  | [] => none
  | e :: es => if e.1 = k then some e.2 else lookup k es

/-- Python `d[k] = v`: replace the value at an existing key in place,
otherwise append the new entry at the end. -/
def setItem (es : Config) (k : String) (v : Value) : Config :=
  match es with
  | [] => [(k, v)]
  | e :: rest => if e.1 = k then (k, v) :: rest else e :: setItem rest k v

/-- Python `base.update(upd)`: fold the updates into the base dict, later
entries winning over earlier same-keyed ones. -/
def dictUpdate (base : Config) (upd : Config) : Config :=
  upd.foldl (fun acc e => setItem acc e.1 e.2) base

/-- A filesystem path, as a list of components. -/
abbrev Path := List String

/-- Split a character stream on the path separator. -/
def splitSlash : List Char → List (List Char)
  | [] => [[]]
  | c :: cs =>
    match splitSlash cs with
    | [] => if c = '/' then [[], []] else [[c]]
    | g :: gs => if c = '/' then [] :: g :: gs else (c :: g) :: gs

/-- `pathlib` parsing of a path string: split on the separator and drop empty
and single-dot components (pathlib normalises those away). -/
def pathOfString (s : String) : Path :=
  ((splitSlash s.data).map String.mk).filter (fun c => decide (c ≠ "" ∧ c ≠ "."))

/-- `self.project_root = Path(config.get('project_root', '.'))`. -/
def projectRootStr (config : Config) : String :=
  match lookup "project_root" config with
  | some (Value.str s) => s
  | _ => "."

/-- `self.project_root` as a component path. -/
def projectRootPath (config : Config) : Path :=
  pathOfString (projectRootStr config)

/-- `self.workflow_dir = self.project_root / '.github' / 'workflows'`. -/
def workflowDir (config : Config) : Path :=
  projectRootPath config ++ [".github", "workflows"]

/-- Contents of a file.  JSON files are represented already parsed
(`jsonObj`) because the JSON grammar itself is external to the repository;
`text` stands for any file that does not parse as a JSON object. -/
inductive FileData where
  | text : String → FileData
  | jsonObj : Config → FileData

/-- Filesystem state: the set of existing directories and the existing
files with their contents. -/
structure FS where
  dirs : List Path
  files : List (Path × FileData)

/-- Lookup of a file by path in a file table. -/
def lookupFileIn (p : Path) : List (Path × FileData) → Option FileData
  | [] => none
  | e :: es => if e.1 = p then some e.2 else lookupFileIn p es

/-- Lookup of a file by path in a filesystem. -/
def lookupFile (p : Path) (fs : FS) : Option FileData :=
  lookupFileIn p fs.files

/-- `Path.exists()`: true for any directory entry, file or directory. -/
def pexists (fs : FS) (p : Path) : Bool :=
  decide (p ∈ fs.dirs ∨ p ∈ fs.files.map Prod.fst)

/-- If `p` is an immediate child of directory `d`, its final component. -/
def childOf (d p : Path) : Option String :=
  match p.drop d.length with
  | [n] => if p.take d.length = d then some n else none
  | _ => none

/-- Names of the immediate children (files or directories) of `d`. -/
def childNames (fs : FS) (d : Path) : List String :=
  (fs.dirs ++ fs.files.map Prod.fst).filterMap (childOf d)

/-- Whether a name matches the glob pattern `*.move`: a single `*` matches
any (possibly empty) run of characters, so the name must end in `.move`. -/
def isMoveName (n : String) : Bool :=
  ".move".data.isSuffixOf n.data

/-- `Path(d).glob('*.move')`: empty when `d` is not a directory, otherwise
every immediate child entry, of either kind, whose name matches the
pattern. -/
def globMove (fs : FS) (d : Path) : List String :=
  if decide (d ∈ fs.dirs) then (childNames fs d).filter isMoveName else []

/-- The result of `detect_project_structure`. -/
structure ProjectStructure where
  has_move_toml : Bool
  has_tests : Bool
  has_sources : Bool
deriving DecidableEq

/-- The probe shared by both variants: marker-file existence at the root
and non-emptiness of the `*.move` globs in `tests` and `sources`. -/
def probeStructure (root : Path) (fs : FS) : ProjectStructure :=
  { has_move_toml := pexists fs (root ++ ["Move.toml"])
    has_tests := !(globMove fs (root ++ ["tests"])).isEmpty
    has_sources := !(globMove fs (root ++ ["sources"])).isEmpty }

/-- Fatal error conditions of the program. -/
inductive Err where
  | fileNotFound
  | jsonDecodeError
  | fileExists
  | isADirectory
deriving DecidableEq

/-- The non-empty prefixes of a path, shortest first: the chain of
directories `mkdir(parents=True)` has to ensure. -/
def ancestors (p : Path) : List Path :=
  (List.range p.length).map (fun k => p.take (k + 1))

/-- Add the given directories to the directory table unless already present. -/
def addMissing (dirs : List Path) (ps : List Path) : List Path :=
  dirs ++ ps.filter (fun q => decide (q ∉ dirs))

/-- `Path.mkdir(parents=True, exist_ok=True)`: creates every missing
ancestor directory; existing directories are no error, but an existing
*file* anywhere on the chain raises `FileExistsError`. -/
def mkdirParents (d : Path) (fs : FS) : Except Err FS :=
  if decide (∃ q ∈ ancestors d, q ∈ fs.files.map Prod.fst) then Except.error Err.fileExists
  else Except.ok ⟨addMissing fs.dirs (ancestors d), fs.files⟩

/-- `open(p, 'w')` followed by a full write: create or truncate-and-replace
the file at `p`; fails if `p` is a directory. -/
def setFile (p : Path) (d : FileData) : List (Path × FileData) → List (Path × FileData)
  | [] => [(p, d)]
  | e :: es => if e.1 = p then (p, d) :: es else e :: setFile p d es

/-- Write `d` to the file at `p`, overwriting any existing content. -/
def openWrite (p : Path) (d : FileData) (fs : FS) : Except Err FS :=
  if decide (p ∈ fs.dirs) then Except.error Err.isADirectory
  else Except.ok ⟨fs.dirs, setFile p d fs.files⟩

/-- Whether a value is rendered on the same line as its key or dash. -/
def isInline : Value → Bool
  | Value.str s => !(s.data.contains '\n')
  | Value.bool _ => true
  | Value.list _ => false
  | Value.dict _ => false

/-- The one-line rendering of an inline scalar. -/
def inlineText : Value → String
  | Value.str s => s
  | Value.bool b => if b then "true" else "false"
  | Value.list _ => ""
  | Value.dict _ => ""

/-- Header line text for a mapping entry whose value is rendered on
subsequent lines (a literal block marker for multi-line strings). -/
def entryHead (k : String) (v : Value) : String :=
  match v with
  | Value.str _ => k ++ ": |-"
  | _ => k ++ ":"

/-- Header line text for a sequence item rendered on subsequent lines. -/
def itemHead (v : Value) : String :=
  match v with
  | Value.str _ => "- |-"
  | _ => "-"

/-- A rendered output line: nesting depth and text. -/
abbrev Line := Nat × String

/-- Modelled from the spec: the line-level output of `yaml.safe_dump` with
`sort_keys=False` and `default_flow_style=False` (PyYAML itself is external
to the repository).  Block style throughout, mapping keys emitted in
insertion order, sequences in element order, multi-line strings as literal
blocks.  `fuel` bounds the nesting depth and exceeds the depth of every
document the generator builds. -/
def dumpLines : Nat → Nat → Value → List Line
  | 0, _, _ => []
  | _ + 1, i, Value.str s => (s.splitOn "\n").map (fun ln => (i, ln))
  | _ + 1, i, Value.bool b => [(i, inlineText (Value.bool b))]
  | fuel + 1, i, Value.list vs =>
    vs.flatMap (fun v =>
      if isInline v then [(i, "- " ++ inlineText v)]
      else (i, itemHead v) :: dumpLines fuel (i + 1) v)
  | fuel + 1, i, Value.dict es =>
    es.flatMap (fun e =>
      if isInline e.2 then [(i, e.1 ++ ": " ++ inlineText e.2)]
      else (i, entryHead e.1 e.2) :: dumpLines fuel (i + 1) e.2)

/-- The lines contributed by one mapping entry. -/
def entryLines (fuel i : Nat) (k : String) (v : Value) : List Line :=
  if isInline v then [(i, k ++ ": " ++ inlineText v)]
  else (i, entryHead k v) :: dumpLines fuel (i + 1) v

/-- The lines contributed by one sequence item. -/
def itemLines (fuel i : Nat) (v : Value) : List Line :=
  if isInline v then [(i, "- " ++ inlineText v)]
  else (i, itemHead v) :: dumpLines fuel (i + 1) v

theorem dumpLines_dict (fuel i : Nat) (es : List (String × Value)) :
    dumpLines (fuel + 1) i (Value.dict es) = es.flatMap (fun e => entryLines fuel i e.1 e.2) := rfl

theorem dumpLines_list (fuel i : Nat) (vs : List Value) :
    dumpLines (fuel + 1) i (Value.list vs) = vs.flatMap (fun v => itemLines fuel i v) := rfl

/-- Render one line: two spaces of indentation per nesting level. -/
def renderLine (l : Line) : String :=
  String.mk (List.replicate (2 * l.1) ' ') ++ l.2 ++ "\n"

/-- Concatenate rendered lines into the output character stream. -/
def renderAll : List Line → List Char
  | [] => []
  | l :: ls => (renderLine l).data ++ renderAll ls

/-- Modelled from the spec: the serialised document written by
`save_workflow` (block style, insertion order preserved). -/
def yamlDump (v : Value) : String :=
  String.mk (renderAll (dumpLines 32 0 v))

/-- The text before the first colon of a line: the key of a mapping line. -/
def keyPart (s : String) : String :=
  String.mk (s.data.takeWhile (fun c => c ≠ ':'))

/-- The keys of the top-level (indentation zero) mapping lines, in output
order. -/
def topKeys (ls : List Line) : List String :=
  ls.filterMap (fun l => if l.1 = 0 then some (keyPart l.2) else none)

/-- A key that renders faithfully: it contains no colon. -/
abbrev goodKey (k : String) : Prop := (':' : Char) ∉ k.data


/-- Parsed command-line arguments of `main`. -/
structure Args where
  config : Option Path
  project_root : String
  enable_deployment : Bool

/-- The configuration `main` builds: CLI values first, then the entries of
the optional JSON config file folded over them (`config.update(...)`), so
config-file values override CLI values.  A missing config file surfaces as
`fileNotFound`, a file that is not a JSON object as `jsonDecodeError`. -/
def mergedConfig (a : Args) (fs : FS) : Except Err Config :=
  let config : Config :=
    [("project_root", Value.str a.project_root), ("enable_deployment", Value.bool a.enable_deployment)]
  match a.config with
  | none => Except.ok config
  | some p =>
    match lookupFile p fs with
    | none => Except.error Err.fileNotFound
    | some (FileData.text _) => Except.error Err.jsonDecodeError
    | some (FileData.jsonObj d) => Except.ok (dictUpdate config d)

namespace Design

def generate_build_job_step_0 : Value :=
  Value.dict [("name", Value.str "Checkout code"), ("uses", Value.str "actions/checkout@v4")]

def generate_build_job_step_1 : Value :=
  Value.dict [("name", Value.str "Install Homebrew and Sui"), ("run", Value.str "\n                        \x23 Install Homebrew\n                        /bin/bash -c \"$(curl -fsSL https://raw.githubusercontent.com/Homebrew/install/HEAD/install.sh)\"\n                        \n                        \x23 Add brew to PATH for this step and future steps\n                        echo \"/home/linuxbrew/.linuxbrew/bin\" >> $GITHUB_PATH\n                        echo \"/home/linuxbrew/.linuxbrew/sbin\" >> $GITHUB_PATH\n                        \n                        \x23 Set environment variables for this workflow\n                        echo \"HOMEBREW_PREFIX=/home/linuxbrew/.linuxbrew\" >> $GITHUB_ENV\n                        echo \"HOMEBREW_CELLAR=/home/linuxbrew/.linuxbrew/Cellar\" >> $GITHUB_ENV\n                        echo \"HOMEBREW_REPOSITORY=/home/linuxbrew/.linuxbrew/Homebrew\" >> $GITHUB_ENV\n                        \n                        \x23 Source brew environment for this step\n                        eval \"$(/home/linuxbrew/.linuxbrew/bin/brew shellenv)\"\n                        \n                        \x23 Install dependencies\n                        sudo apt-get update\n                        sudo apt-get install -y build-essential\n                        brew install gcc\n                        \n                        \x23 Install Sui\n                        brew install sui\n                        \n                        \x23 Verify Sui installation\n                        sui --version\n                    ")]

def generate_build_job_step_2 : Value :=
  Value.dict [("name", Value.str "Build Move modules"), ("run", Value.str "\n                        \x23 Verify sui command is available\n                        which sui || (echo \"Sui command not found in PATH\" && exit 1)\n                        sui --version\n                        \n                        \x23 Build the project\n                        sui move build\n                    "), ("working-directory", Value.str "$\x7b\x7b github.workspace \x7d\x7d")]

def generate_build_job (config : Config) : Value :=
  Value.dict [("name", Value.str "Build"),
    ("runs-on", Value.str "ubuntu-latest"),
    ("steps", Value.list [generate_build_job_step_0, generate_build_job_step_1, generate_build_job_step_2])]

def generate_test_job_step_0 : Value :=
  Value.dict [("name", Value.str "Checkout code"), ("uses", Value.str "actions/checkout@v4")]

def generate_test_job_step_1 : Value :=
  Value.dict [("name", Value.str "Install Homebrew and Sui"), ("run", Value.str "\n                        \x23 Install Homebrew\n                        /bin/bash -c \"$(curl -fsSL https://raw.githubusercontent.com/Homebrew/install/HEAD/install.sh)\"\n                        \n                        \x23 Add brew to PATH for this step and future steps\n                        echo \"/home/linuxbrew/.linuxbrew/bin\" >> $GITHUB_PATH\n                        echo \"/home/linuxbrew/.linuxbrew/sbin\" >> $GITHUB_PATH\n                        \n                        \x23 Set environment variables for this workflow\n                        echo \"HOMEBREW_PREFIX=/home/linuxbrew/.linuxbrew\" >> $GITHUB_ENV\n                        echo \"HOMEBREW_CELLAR=/home/linuxbrew/.linuxbrew/Cellar\" >> $GITHUB_ENV\n                        echo \"HOMEBREW_REPOSITORY=/home/linuxbrew/.linuxbrew/Homebrew\" >> $GITHUB_ENV\n                        \n                        \x23 Source brew environment for this step\n                        eval \"$(/home/linuxbrew/.linuxbrew/bin/brew shellenv)\"\n                        \n                        \x23 Install dependencies\n                        sudo apt-get update\n                        sudo apt-get install -y build-essential\n                        brew install gcc\n                        \n                        \x23 Install Sui\n                        brew install sui\n                        \n                        \x23 Verify Sui installation\n                        sui --version\n                    ")]

def generate_test_job_step_2 : Value :=
  Value.dict [("name", Value.str "Run Move tests"), ("run", Value.str "\n                        \x23 Verify sui command is available\n                        which sui || (echo \"Sui command not found in PATH\" && exit 1)\n                        \n                        \x23 Run tests\n                        sui move test\n                    "), ("working-directory", Value.str "$\x7b\x7b github.workspace \x7d\x7d")]

def generate_test_job (config : Config) : Value :=
  Value.dict [("name", Value.str "Test"),
    ("runs-on", Value.str "ubuntu-latest"),
    ("needs", Value.str "build"),
    ("steps", Value.list [generate_test_job_step_0, generate_test_job_step_1, generate_test_job_step_2])]

def generate_security_job_step_0 : Value :=
  Value.dict [("name", Value.str "Checkout code"), ("uses", Value.str "actions/checkout@v4")]

def generate_security_job_step_1 : Value :=
  Value.dict [("name", Value.str "Install Homebrew and Sui"), ("run", Value.str "\n                        \x23 Install Homebrew\n                        /bin/bash -c \"$(curl -fsSL https://raw.githubusercontent.com/Homebrew/install/HEAD/install.sh)\"\n                        \n                        \x23 Add brew to PATH for this step and future steps\n                        echo \"/home/linuxbrew/.linuxbrew/bin\" >> $GITHUB_PATH\n                        echo \"/home/linuxbrew/.linuxbrew/sbin\" >> $GITHUB_PATH\n                        \n                        \x23 Set environment variables for this workflow\n                        echo \"HOMEBREW_PREFIX=/home/linuxbrew/.linuxbrew\" >> $GITHUB_ENV\n                        echo \"HOMEBREW_CELLAR=/home/linuxbrew/.linuxbrew/Cellar\" >> $GITHUB_ENV\n                        echo \"HOMEBREW_REPOSITORY=/home/linuxbrew/.linuxbrew/Homebrew\" >> $GITHUB_ENV\n                        \n                        \x23 Source brew environment for this step\n                        eval \"$(/home/linuxbrew/.linuxbrew/bin/brew shellenv)\"\n                        \n                        \x23 Install dependencies\n                        sudo apt-get update\n                        sudo apt-get install -y build-essential jq\n                        brew install gcc\n                        \n                        \x23 Install Sui\n                        brew install sui\n                        \n                        \x23 Verify Sui installation\n                        sui --version\n                    ")]

def generate_security_job_step_2 : Value :=
  Value.dict [("name", Value.str "Run Sui Built-in Linters"), ("run", Value.str "\n                        \x23 Run Move build with linting enabled\n                        echo \"=== Running Sui Built-in Linters ===\"\n                        sui move build --lint || echo \"Linting completed with warnings\"\n                        \n                        \x23 Check for potential security issues in linter output\n                        echo \"=== Linter Security Summary ===\"\n                        echo \"Built-in linters check for:\"\n                        echo \"- Coin field optimization (W03001)\"\n                        echo \"- Collection equality issues (W05001)\" \n                        echo \"- Custom state change problems (W02001)\"\n                        echo \"- Freeze wrapped object issues (W04001)\"\n                        echo \"- Self transfer anti-patterns (W01001)\"\n                        echo \"- Share owned object problems (W00001)\"\n                    "), ("working-directory", Value.str "$\x7b\x7b github.workspace \x7d\x7d")]

def generate_security_job_step_3 : Value :=
  Value.dict [("name", Value.str "Security Best Practices Check"), ("run", Value.str "\n                        echo \"=== Security Best Practices Analysis ===\"\n                        \n                        \x23 Check for common security patterns\n                        echo \"Checking for common security patterns...\"\n                        \n                        \x23 Check for proper access controls\n                        echo \"\u00e2\u2020\u2019 Checking access control patterns...\"\n                        grep -r \"public(\" sources/ || echo \"No public functions found\"\n                        grep -r \"entry \" sources/ || echo \"No entry functions found\"\n                        grep -r \"public(package)\" sources/ || echo \"No package-level functions found\"\n                        \n                        \x23 Check for proper object management\n                        echo \"\u00e2\u2020\u2019 Checking object management...\"\n                        grep -r \"transfer::\" sources/ || echo \"No transfer operations found\"\n                        grep -r \"share_object\" sources/ || echo \"No shared objects found\"\n                        \n                        \x23 Check for capability usage\n                        echo \"\u00e2\u2020\u2019 Checking capability usage...\"\n                        grep -r \"has key\" sources/ || echo \"No key capabilities found\"\n                        grep -r \"has store\" sources/ || echo \"No store capabilities found\"\n                        \n                        \x23 Check for potential flash loan patterns\n                        echo \"\u00e2\u2020\u2019 Checking for flash loan patterns (Hot Potato)...\"\n                        grep -r \"borrow\\|loan\" sources/ || echo \"No borrowing patterns found\"\n                        \n                        \x23 Check for arithmetic operations that might overflow\n                        echo \"\u00e2\u2020\u2019 Checking arithmetic operations...\"\n                        grep -r \"<<\\|>>\" sources/ && echo \"\u00e2\u0161\u00a0\u00ef\u00b8  Found bitwise operations - check for overflow\" || echo \"No bitwise operations found\"\n                        \n                        \x23 Check for external calls\n                        echo \"\u00e2\u2020\u2019 Checking external module usage...\"\n                        grep -r \"use.*::\" sources/ | head -10 || echo \"No external modules found\"\n                        \n                        echo \"\u00e2\u0153\u2026 Security best practices check completed\"\n                    "), ("working-directory", Value.str "$\x7b\x7b github.workspace \x7d\x7d")]

def generate_security_job_step_4 : Value :=
  Value.dict [("name", Value.str "Formal Verification Check"), ("run", Value.str "\n                        echo \"=== Formal Verification Analysis ===\"\n                        \n                        \x23 Check if Sui Prover specs are present\n                        if find sources/ -name \"*.move\" -exec grep -l \"spec\\|ensures\\|requires\\|aborts_if\" \x7b\x7d \\; | head -5; then\n                            echo \"\u00e2\u0153\u2026 Found formal verification specs\"\n                            echo \"Formal specs help prove:\"\n                            echo \"- Function correctness\"\n                            echo \"- Invariant preservation\"\n                            echo \"- Absence of arithmetic overflows\"\n                            echo \"- Resource safety properties\"\n                        else\n                            echo \"\u00e2\u0161\u00a0\u00ef\u00b8  No formal verification specs found\"\n                            echo \"Consider adding formal specs for critical functions:\"\n                            echo \"- spec ensures result == expected\"\n                            echo \"- spec requires input > 0\"\n                            echo \"- spec aborts_if condition\"\n                            echo \"\"\n                            echo \"Learn more: https://github.com/asymptotic-io/sui-prover\"\n                        fi\n                    "), ("working-directory", Value.str "$\x7b\x7b github.workspace \x7d\x7d")]

def generate_security_job_step_5 : Value :=
  Value.dict [("name", Value.str "Generate Security Report"), ("run", Value.str "\n                        echo \"=== Generating Security Report ===\"\n                        \n                        \x23 Create security report\n                        cat > security-report.md << \x27EOF\x27\n                        \x23 Security Analysis Report\n                        \n                        \x23\x23 Overview\n                        This report summarizes the security analysis of the Sui Move smart contracts.\n                        \n                        \x23\x23 Tools Used\n                        - **Sui Built-in Linters**: Checks for Move-specific anti-patterns\n                        - **Security Best Practices**: Manual checks for common vulnerabilities\n                        - **Formal Verification**: Checks for mathematical proofs of correctness\n                        \n                        \x23\x23 Security Considerations for Sui Move Contracts\n                        \n                        \x23\x23\x23 1. Access Control\n                        - \u00e2\u0153\u2026 Review function visibility (\x60public\x60, \x60entry\x60, \x60public(package)\x60)\n                        - \u00e2\u0153\u2026 Ensure proper capability-based security\n                        - \u00e2\u0153\u2026 Validate object ownership patterns\n                        \n                        \x23\x23\x23 2. Object Management  \n                        - \u00e2\u0153\u2026 Proper use of transfer operations\n                        - \u00e2\u0153\u2026 Correct shared vs owned object handling\n                        - \u00e2\u0153\u2026 Avoid freezing wrapped objects\n                        \n                        \x23\x23\x23 3. Arithmetic Safety\n                        - \u00e2\u0153\u2026 Move provides automatic overflow protection\n                        - \u00e2\u0161\u00a0\u00ef\u00b8 Bitwise operations don\x27t have overflow checks\n                        - \u00e2\u0153\u2026 Consider precision errors in calculations\n                        \n                        \x23\x23\x23 4. Resource Safety\n                        - \u00e2\u0153\u2026 Move\x27s linear type system prevents double-spending\n                        - \u00e2\u0153\u2026 Resources must be explicitly consumed or stored\n                        - \u00e2\u0153\u2026 No dangling references possible\n                        \n                        \x23\x23\x23 5. Flash Loan Protection\n                        - \u00e2\u0153\u2026 Analyze \"Hot Potato\" patterns\n                        - \u00e2\u0153\u2026 Ensure proper state validation\n                        - \u00e2\u0153\u2026 Check for price oracle manipulation\n                        \n                        \x23\x23 Recommended Security Practices\n                        \n                        1. **Use Formal Verification**: Add specs to critical functions\n                        2. **Professional Audit**: Consider audits from:\n                           - MoveBit (Move-focused security)\n                           - OtterSec (Multi-chain auditor)\n                           - Beosin (Move Lint tools)\n                           - SlowMist (Comprehensive auditing)\n                        3. **Static Analysis**: Use available linting tools\n                        4. **Testing**: Comprehensive unit and integration tests\n                        5. **Documentation**: Clear function specifications\n                        \n                        \x23\x23 External Security Resources\n                        \n                        - [Sui Move Security Guide](https://docs.sui.io/concepts/sui-move-concepts)\n                        - [MoveBit Security Tools](https://m.movebit.xyz/MoveScanner)\n                        - [Sui Prover](https://github.com/asymptotic-io/sui-prover)\n                        - [SlowMist Audit Primer](https://github.com/slowmist/Sui-MOVE-Smart-Contract-Auditing-Primer)\n                        \n                        ---\n                        *Report generated on $(date)*\n                        EOF\n                        \n                        echo \"\u00e2\u0153\u2026 Security report generated: security-report.md\"\n                        \n                        \x23 Display key security recommendations\n                        echo \"\"\n                        echo \"=== Key Security Recommendations ===\"\n                        echo \"1. \u00f0\u0178\u201d Consider professional security audit before mainnet\"\n                        echo \"2. \u00f0\u0178\u201c Add formal verification specs for critical functions\"\n                        echo \"3. \u00f0\u0178\u00a7\u00aa Implement comprehensive test coverage\"\n                        echo \"4. \u00f0\u0178\u201d\u2019 Review all public/entry function access controls\"\n                        echo \"5. \u00f0\u0178\u2019\u00b0 Validate economic assumptions and tokenomics\"\n                        echo \"6. \u00f0\u0178\u2014\u00ef\u00b8  Test upgrade and migration procedures\"\n                    "), ("working-directory", Value.str "$\x7b\x7b github.workspace \x7d\x7d")]

def generate_security_job_step_6 : Value :=
  Value.dict [("name", Value.str "Upload Security Report"), ("uses", Value.str "actions/upload-artifact@v4"), ("with", Value.dict [("name", Value.str "security-report"), ("path", Value.str "security-report.md")])]

def generate_security_job (config : Config) : Value :=
  Value.dict [("name", Value.str "Security Analysis"),
    ("runs-on", Value.str "ubuntu-latest"),
    ("needs", Value.str "build"),
    ("steps", Value.list [generate_security_job_step_0, generate_security_job_step_1, generate_security_job_step_2, generate_security_job_step_3, generate_security_job_step_4, generate_security_job_step_5, generate_security_job_step_6])]

def generate_deploy_job_step_0 : Value :=
  Value.dict [("name", Value.str "Checkout code"), ("uses", Value.str "actions/checkout@v4")]

def generate_deploy_job_step_1 : Value :=
  Value.dict [("name", Value.str "Install Homebrew and Sui"), ("run", Value.str "\n                        \x23 Install Homebrew\n                        /bin/bash -c \"$(curl -fsSL https://raw.githubusercontent.com/Homebrew/install/HEAD/install.sh)\"\n                        \n                        \x23 Add brew to PATH for this step and future steps\n                        echo \"/home/linuxbrew/.linuxbrew/bin\" >> $GITHUB_PATH\n                        echo \"/home/linuxbrew/.linuxbrew/sbin\" >> $GITHUB_PATH\n                        \n                        \x23 Set environment variables for this workflow\n                        echo \"HOMEBREW_PREFIX=/home/linuxbrew/.linuxbrew\" >> $GITHUB_ENV\n                        echo \"HOMEBREW_CELLAR=/home/linuxbrew/.linuxbrew/Cellar\" >> $GITHUB_ENV\n                        echo \"HOMEBREW_REPOSITORY=/home/linuxbrew/.linuxbrew/Homebrew\" >> $GITHUB_ENV\n                        \n                        \x23 Source brew environment for this step\n                        eval \"$(/home/linuxbrew/.linuxbrew/bin/brew shellenv)\"\n                        \n                        \x23 Install dependencies\n                        sudo apt-get update\n                        sudo apt-get install -y build-essential jq\n                        brew install gcc\n                        \n                        \x23 Install Sui\n                        brew install sui\n                        \n                        \x23 Verify Sui installation\n                        sui --version\n                    ")]

def generate_deploy_job_step_2 : Value :=
  Value.dict [("name", Value.str "Setup Sui CLI config and Deploy"), ("run", Value.str "\n                        \x23 Verify sui command is available\n                        which sui || (echo \"Sui command not found in PATH\" && exit 1)\n                        \n                        \x23 Check if all required secrets are provided\n                        if [ -z \"$SUI_CONFIG\" ] || [ -z \"$SUI_KEYSTORE\" ] || [ -z \"$SUI_ALIASES\" ]; then\n                            echo \"\u00e2\u0161\u00a0\u00ef\u00b8  Deployment skipped: Required secrets are not configured\"\n                            echo \"To enable deployment:\"\n                            echo \"1. Add SUI_CONFIG secret with your wallet configuration\"\n                            echo \"2. Add SUI_KEYSTORE secret with your keystore file content\"\n                            echo \"3. Add SUI_ALIASES secret with your aliases file content\"\n                            echo \"4. Fund the wallet with devnet SUI tokens\"\n                            exit 0\n                        fi\n                        \n                        \x23 Create config directory\n                        mkdir -p ~/.sui/sui_config\n                        \n                        echo \"Setting up Sui configuration...\"\n                        echo \"SUI_CONFIG secret present: $([ -n \"$SUI_CONFIG\" ] && echo \"YES\" || echo \"NO\")\"\n                        echo \"SUI_KEYSTORE secret present: $([ -n \"$SUI_KEYSTORE\" ] && echo \"YES\" || echo \"NO\")\"\n                        echo \"SUI_ALIASES secret present: $([ -n \"$SUI_ALIASES\" ] && echo \"YES\" || echo \"NO\")\"\n                        \n                        \x23 Write config file\n                        echo \"Writing SUI_CONFIG to client.yaml...\"\n                        echo \"$SUI_CONFIG\" > ~/.sui/sui_config/client.yaml\n                        echo \"\u00e2\u0153\u2026 Written SUI_CONFIG to client.yaml\"\n                        \n                        \x23 Write keystore file\n                        echo \"Writing SUI_KEYSTORE to sui.keystore...\"\n                        echo \"$SUI_KEYSTORE\" > ~/.sui/sui_config/sui.keystore\n                        echo \"\u00e2\u0153\u2026 Written SUI_KEYSTORE\"\n                        \n                        \x23 Write aliases file\n                        echo \"Writing SUI_ALIASES to sui.aliases...\"\n                        echo \"$SUI_ALIASES\" > ~/.sui/sui_config/sui.aliases\n                        echo \"\u00e2\u0153\u2026 Written SUI_ALIASES\"\n                        \n                        \x23 Set proper permissions\n                        chmod 600 ~/.sui/sui_config/*\n                        \n                        \x23 Fix the keystore path in client.yaml\n                        echo \"Fixing keystore path in client.yaml...\"\n                        sed -i \x27s|/home/ngocanh/.sui/sui_config/sui.keystore|/home/runner/.sui/sui_config/sui.keystore|g\x27 ~/.sui/sui_config/client.yaml\n                        echo \"\u00e2\u0153\u2026 Updated keystore path\"\n                        \n                        \x23 Try to check addresses from configuration\n                        echo \"=== Checking Sui Configuration ===\"\n                        sui client addresses || \x7b\n                            echo \"Failed to get addresses from keystore. Creating a new address for CI deployment...\"\n                            \n                            \x23 Create a new address for CI deployment\n                            echo \"Creating new address...\"\n                            NEW_ADDRESS=$(sui client new-address ed25519 --json | jq -r \x27.address\x27 2>/dev/null || \x7b\n                                sui client new-address ed25519 | grep -oE \x270x[a-fA-F0-9]+\x27 | head -1\n                            \x7d)\n                            \n                            if [ -n \"$NEW_ADDRESS\" ]; then\n                                echo \"\u00e2\u0153\u2026 Created new address: $NEW_ADDRESS\"\n                                \n                                \x23 Try to get devnet tokens\n                                echo \"Requesting devnet tokens...\"\n                                curl -X POST https://faucet.devnet.sui.io/gas                                     -H \x27Content-Type: application/json\x27                                     -d \"\x7b\"FixedAmountRequest\":\x7b\"recipient\":\"$NEW_ADDRESS\"\x7d\x7d\"                                     --silent --show-error || echo \"Warning: Failed to request tokens from faucet\"\n                                \n                                \x23 Wait for the faucet\n                                echo \"Waiting for faucet transaction...\"\n                                sleep 10\n                            else\n                                echo \"\u00e2\u0152 Failed to create new address\"\n                            exit 1\n                            fi\n                        \x7d\n                        \n                        \x23 Final check - get active address\n                        ACTIVE_ADDRESS=$(sui client active-address 2>/dev/null || echo \"\")\n                        if [ -z \"$ACTIVE_ADDRESS\" ] || [ \"$ACTIVE_ADDRESS\" = \"None\" ]; then\n                            echo \"\u00e2\u0152 No active address found after configuration\"\n                            exit 1\n                        else\n                            echo \"\u00e2\u0153\u2026 Active address: $ACTIVE_ADDRESS\"\n                        fi\n                        \n                        \x23 Check if we have gas before attempting deployment\n                        echo \"Checking gas balance...\"\n                        if ! sui client gas; then\n                            echo \"\u00e2\u0152 Failed to check gas balance or no gas objects found.\"\n                            echo \"Please fund your address with devnet SUI tokens before deployment.\"\n                            echo \"You can get devnet tokens from: https://discord.com/channels/916379725201563759/971488439931392130\"\n                            exit 1\n                        fi\n                        \n                        echo \"=== Publishing Package ===\"\n                        if sui client publish --gas-budget 100000000; then\n                            echo \"\u00e2\u0153\u2026 Package published successfully to devnet\"\n                        else\n                            echo \"\u00e2\u0152 Deployment failed\"\n                            echo \"This might be due to insufficient gas, network issues, or compilation errors\"\n                            exit 1\n                        fi\n                    ")]

def generate_deploy_job (config : Config) : Value :=
  Value.dict [("name", Value.str "Deploy to Devnet"),
    ("runs-on", Value.str "ubuntu-latest"),
    ("needs", Value.list [Value.str "test", Value.str "security"]),
    ("if", Value.str "github.ref == \x27refs/heads/main\x27 && github.event_name == \x27push\x27"),
    ("env", Value.dict [("SUI_NETWORK", Value.str "devnet"), ("SUI_CONFIG", Value.str "$\x7b\x7b secrets.SUI_CONFIG \x7d\x7d"), ("SUI_KEYSTORE", Value.str "$\x7b\x7b secrets.SUI_KEYSTORE \x7d\x7d"), ("SUI_ALIASES", Value.str "$\x7b\x7b secrets.SUI_ALIASES \x7d\x7d")]),
    ("steps", Value.list [generate_deploy_job_step_0, generate_deploy_job_step_1, generate_deploy_job_step_2])]

def generate_workflow (config : Config) : Value :=
  Value.dict [("name", Value.str "Sui Smart Contract CI/CD"),
    ("on", Value.dict [
      ("push", Value.dict [("branches", Value.list [Value.str "main", Value.str "develop"])]),
      ("pull_request", Value.dict [("branches", Value.list [Value.str "main", Value.str "develop"])])]),
    ("env", Value.dict [("RUST_BACKTRACE", Value.str "1"), ("SUI_LOG_LEVEL", Value.str "info")]),
    ("jobs", Value.dict [
      ("build", generate_build_job config),
      ("test", generate_test_job config),
      ("security", generate_security_job config),
      ("deploy", generate_deploy_job config)])]

def detect_project_structure (config : Config) (fs : FS) : ProjectStructure :=
  probeStructure (projectRootPath config) fs

def save_workflow (config : Config) (workflow : Value) (fs : FS) : Except Err FS :=
  match mkdirParents (workflowDir config) fs with
  | Except.error e => Except.error e
  | Except.ok fs1 =>
    openWrite (workflowDir config ++ ["sui-ci.yml"]) (FileData.text (yamlDump workflow)) fs1

def mainRun (a : Args) (fs : FS) : Except Err String × FS :=
  match mergedConfig a fs with
  | Except.error e => (Except.error e, fs)
  | Except.ok config =>
    match save_workflow config (generate_workflow config) fs with
    | Except.error e => (Except.error e, fs)
    | Except.ok fs1 =>
      (Except.ok "Successfully generated CI/CD workflow at .github/workflows/sui-ci.yml", fs1)

end Design

namespace Src

def generate_env_setup_step_0 : Value :=
  Value.dict [("name", Value.str "Checkout code"), ("uses", Value.str "actions/checkout@v4")]

def generate_env_setup_step_1 : Value :=
  Value.dict [("name", Value.str "Install Homebrew and Sui"), ("run", Value.str "\n                        \x23 Install Homebrew\n                        /bin/bash -c \"$(curl -fsSL https://raw.githubusercontent.com/Homebrew/install/HEAD/install.sh)\"\n                        \n                        \x23 Add brew to PATH for this step and future steps\n                        echo \"/home/linuxbrew/.linuxbrew/bin\" >> $GITHUB_PATH\n                        echo \"/home/linuxbrew/.linuxbrew/sbin\" >> $GITHUB_PATH\n                        \n                        \x23 Set environment variables for this workflow\n                        echo \"HOMEBREW_PREFIX=/home/linuxbrew/.linuxbrew\" >> $GITHUB_ENV\n                        echo \"HOMEBREW_CELLAR=/home/linuxbrew/.linuxbrew/Cellar\" >> $GITHUB_ENV\n                        echo \"HOMEBREW_REPOSITORY=/home/linuxbrew/.linuxbrew/Homebrew\" >> $GITHUB_ENV\n                        \n                        \x23 Source brew environment for this step\n                        eval \"$(/home/linuxbrew/.linuxbrew/bin/brew shellenv)\"\n                        \n                        \x23 Install dependencies\n                        sudo apt-get update\n                        sudo apt-get install -y build-essential\n                        brew install gcc\n                        \n                        \x23 Install Sui\n                        brew install sui\n                        \n                        \x23 Verify Sui installation\n                        sui --version\n                    ")]

def generate_env_setup_step_2 : Value :=
  Value.dict [("name", Value.str "Build Move modules"), ("run", Value.str "\n                        \x23 Verify sui command is available\n                        which sui || (echo \"Sui command not found in PATH\" && exit 1)\n                        sui --version\n                        \n                        \x23 Build the project\n                        sui move build\n                    "), ("working-directory", Value.str "$\x7b\x7b github.workspace \x7d\x7d")]

def generate_env_setup_step_3 : Value :=
  Value.dict [("name", Value.str "Run Move tests"), ("if", Value.str "github.event_name == \x27pull_request\x27 || github.ref == \x27refs/heads/main\x27"), ("run", Value.str "\n                        \x23 Verify sui command is available\n                        which sui || (echo \"Sui command not found in PATH\" && exit 1)\n                        \n                        \x23 Run tests\n                        sui move test\n                    "), ("working-directory", Value.str "$\x7b\x7b github.workspace \x7d\x7d")]

def generate_env_setup_step_4 : Value :=
  Value.dict [("name", Value.str "Setup Sui CLI config and Deploy"), ("if", Value.str "github.ref == \x27refs/heads/main\x27 && github.event_name == \x27push\x27"), ("env", Value.dict [("SUI_NETWORK", Value.str "devnet"), ("SUI_CONFIG", Value.str "$\x7b\x7b secrets.SUI_CONFIG \x7d\x7d"), ("SUI_KEYSTORE", Value.str "$\x7b\x7b secrets.SUI_KEYSTORE \x7d\x7d"), ("SUI_ALIASES", Value.str "$\x7b\x7b secrets.SUI_ALIASES \x7d\x7d")]), ("run", Value.str "\n                        \x23 Verify sui command is available\n                        which sui || (echo \"Sui command not found in PATH\" && exit 1)\n                        \n                        \x23 Check if all required secrets are provided\n                        if [ -z \"$SUI_CONFIG\" ] || [ -z \"$SUI_KEYSTORE\" ] || [ -z \"$SUI_ALIASES\" ]; then\n                            echo \"\u26a0\ufe0f  Deployment skipped: Required secrets are not configured\"\n                            echo \"To enable deployment:\"\n                            echo \"1. Add SUI_CONFIG secret with your wallet configuration\"\n                            echo \"2. Add SUI_KEYSTORE secret with your keystore file content\"\n                            echo \"3. Add SUI_ALIASES secret with your aliases file content\"\n                            echo \"4. Fund the wallet with devnet SUI tokens\"\n                            exit 0\n                        fi\n                        \n                        \x23 Create config directory\n                        mkdir -p ~/.sui/sui_config\n                        \n                        echo \"Setting up Sui configuration...\"\n                        echo \"SUI_CONFIG secret present: $([ -n \"$SUI_CONFIG\" ] && echo \"YES\" || echo \"NO\")\"\n                        echo \"SUI_KEYSTORE secret present: $([ -n \"$SUI_KEYSTORE\" ] && echo \"YES\" || echo \"NO\")\"\n                        echo \"SUI_ALIASES secret present: $([ -n \"$SUI_ALIASES\" ] && echo \"YES\" || echo \"NO\")\"\n                        \n                        \x23 Write config file\n                        echo \"Writing SUI_CONFIG to client.yaml...\"\n                        echo \"$SUI_CONFIG\" > ~/.sui/sui_config/client.yaml\n                        echo \"\u2705 Written SUI_CONFIG to client.yaml\"\n                        \n                        \x23 Write keystore file\n                        echo \"Writing SUI_KEYSTORE to sui.keystore...\"\n                        echo \"$SUI_KEYSTORE\" > ~/.sui/sui_config/sui.keystore\n                        echo \"\u2705 Written SUI_KEYSTORE\"\n                        \n                        \x23 Write aliases file\n                        echo \"Writing SUI_ALIASES to sui.aliases...\"\n                        echo \"$SUI_ALIASES\" > ~/.sui/sui_config/sui.aliases\n                        echo \"\u2705 Written SUI_ALIASES\"\n                        \n                        \x23 Set proper permissions\n                        chmod 600 ~/.sui/sui_config/*\n                        \n                        \x23 Fix the keystore path in client.yaml\n                        echo \"Fixing keystore path in client.yaml...\"\n                        sed -i \x27s|/home/ngocanh/.sui/sui_config/sui.keystore|/home/runner/.sui/sui_config/sui.keystore|g\x27 ~/.sui/sui_config/client.yaml\n                        echo \"\u2705 Updated keystore path\"\n                        \n                        \x23 Verify the files have correct content\n                        echo \"=== Debugging Configuration Files ===\"\n                        echo \"client.yaml content:\"\n                        cat ~/.sui/sui_config/client.yaml\n                        echo \"\"\n                        echo \"keystore content:\"\n                        cat ~/.sui/sui_config/sui.keystore\n                        echo \"\"\n                        \n                        \x23 Try to check if Sui recognizes the configuration\n                        echo \"=== Testing Sui Configuration ===\"\n                        echo \"Active environment:\"\n                        sui client active-env || echo \"Failed to get active env\"\n                        \n                        echo \"Checking addresses (this might fail):\"\n                        sui client addresses || \x7b\n                            echo \"Failed to get addresses from keystore. Creating a new address for CI deployment...\"\n                            \n                            \x23 Create a new address for CI deployment\n                            echo \"Creating new address...\"\n                            NEW_ADDRESS=$(sui client new-address ed25519 --json | jq -r \x27.address\x27 2>/dev/null || \x7b\n                                \x23 Fallback if JSON parsing fails\n                                sui client new-address ed25519 | grep -oE \x270x[a-fA-F0-9]+\x27 | head -1\n                            \x7d)\n                            \n                            if [ -n \"$NEW_ADDRESS\" ]; then\n                                echo \"\u2705 Created new address: $NEW_ADDRESS\"\n                                \n                                \x23 Try to get devnet tokens\n                                echo \"Requesting devnet tokens...\"\n                                curl -X POST https://faucet.devnet.sui.io/gas                                     -H \x27Content-Type: application/json\x27                                     -d \"\x7b\"FixedAmountRequest\":\x7b\"recipient\":\"$NEW_ADDRESS\"\x7d\x7d\"                                     --silent --show-error || echo \"Warning: Failed to request tokens from faucet\"\n                                \n                                \x23 Wait a bit for the faucet\n                                echo \"Waiting for faucet transaction...\"\n                                sleep 10\n                                \n                                \x23 Check if we received tokens\n                                echo \"Checking gas objects...\"\n                                sui client gas || \x7b\n                                    echo \"\u274c No gas objects found. Deployment cannot proceed.\"\n                                    echo \"Please manually fund the address: $NEW_ADDRESS\"\n                                    echo \"You can use the faucet at: https://discord.com/channels/916379725201563759/971488439931392130\"\n                                    exit 1\n                                \x7d\n                            else\n                                echo \"\u274c Failed to create new address\"\n                                exit 1\n                            fi\n                        \x7d\n                        \n                        \x23 Final check - get active address\n                        echo \"=== Final Configuration Check ===\"\n                        ACTIVE_ADDRESS=$(sui client active-address 2>/dev/null || echo \"\")\n                        if [ -z \"$ACTIVE_ADDRESS\" ] || [ \"$ACTIVE_ADDRESS\" = \"None\" ]; then\n                            echo \"\u274c No active address found after configuration\"\n                            exit 1\n                        else\n                            echo \"\u2705 Active address: $ACTIVE_ADDRESS\"\n                        fi\n                        \n                        \x23 Check if we have gas before attempting deployment\n                        echo \"Checking gas balance...\"\n                        if ! sui client gas; then\n                            echo \"\u274c Failed to check gas balance or no gas objects found.\"\n                            echo \"Please fund your address with devnet SUI tokens before deployment.\"\n                            echo \"You can get devnet tokens from: https://discord.com/channels/916379725201563759/971488439931392130\"\n                            exit 1\n                        fi\n                        \n                        echo \"=== Publishing Package ===\"\n                        if sui client publish --gas-budget 100000000; then\n                            echo \"\u2705 Package published successfully to devnet\"\n                        else\n                            echo \"\u274c Deployment failed\"\n                            echo \"This might be due to insufficient gas, network issues, or compilation errors\"\n                            exit 1\n                        fi\n                    ")]

def generate_env_setup_step_5 : Value :=
  Value.dict [("name", Value.str "Request Test Tokens"), ("if", Value.str "failure() && github.ref == \x27refs/heads/main\x27"), ("run", Value.str "\n                        ACTIVE_ADDRESS=$(sui client active-address)\n                        echo \"Requesting test tokens for $ACTIVE_ADDRESS\"\n                        curl -X POST https://faucet.devnet.sui.io/gas                             -H \x27Content-Type: application/json\x27                             -d \x27\x7b\"FixedAmountRequest\":\x7b\"recipient\":\"$ACTIVE_ADDRESS\"\x7d\x7d\x27\n                    ")]

def generate_env_setup_step_6 : Value :=
  Value.dict [("name", Value.str "Deploy to testnet"), ("if", Value.str "github.ref == \x27refs/heads/main\x27 && github.event_name == \x27push\x27"), ("env", Value.dict [("SUI_NETWORK", Value.str "devnet"), ("SUI_CONFIG", Value.str "$\x7b\x7b secrets.SUI_CONFIG \x7d\x7d"), ("SUI_KEYSTORE", Value.str "$\x7b\x7b secrets.SUI_KEYSTORE \x7d\x7d"), ("SUI_ALIASES", Value.str "$\x7b\x7b secrets.SUI_ALIASES \x7d\x7d")]), ("run", Value.str "\n                        \x23 Verify sui command is available\n                        which sui || (echo \"Sui command not found in PATH\" && exit 1)\n                        \n                        \x23 Check if both SUI_CONFIG and SUI_KEYSTORE are provided\n                        if [ -z \"$SUI_CONFIG\" ] || [ -z \"$SUI_KEYSTORE\" ]; then\n                            echo \"\u26a0\ufe0f  Deployment skipped: SUI_CONFIG or SUI_KEYSTORE secret is not configured\"\n                            echo \"To enable deployment:\"\n                            echo \"1. Add SUI_CONFIG secret with your wallet configuration\"\n                            echo \"2. Add SUI_KEYSTORE secret with your keystore file content\"\n                            echo \"3. Fund the wallet with testnet SUI tokens\"\n                            exit 0\n                        fi\n                        \n                        echo \"Current active address:\"\n                        sui client active-address || \x7b\n                            echo \"\u274c No active address found. Please check your SUI_CONFIG and SUI_KEYSTORE secrets.\"\n                            exit 1\n                        \x7d\n                        \n                        \x23 Check if we have gas before attempting deployment\n                        echo \"Checking gas balance...\"\n                        sui client gas || \x7b\n                            echo \"\u274c Failed to check gas balance. Address may not be funded.\"\n                            echo \"Please fund your address with testnet SUI tokens before deployment.\"\n                            exit 1\n                        \x7d\n                        \n                        echo \"Publishing package...\"\n                        if sui client publish --gas-budget 100000000; then\n                            echo \"\u2705 Package published successfully\"\n                        else\n                            echo \"\u274c Deployment failed\"\n                            echo \"This might be due to insufficient gas or network issues\"\n                            exit 1\n                        fi\n                    ")]

def generate_env_setup_step_7 : Value :=
  Value.dict [("name", Value.str "Verify deployment"), ("if", Value.str "github.ref == \x27refs/heads/main\x27 && github.event_name == \x27push\x27"), ("env", Value.dict [("SUI_CONFIG", Value.str "$\x7b\x7b secrets.SUI_CONFIG \x7d\x7d")]), ("run", Value.str "\n                        \x23 Verify sui command is available\n                        which sui || (echo \"Sui command not found in PATH\" && exit 1)\n                        \n                        \x23 Skip verification if no SUI_CONFIG was provided\n                        if [ -z \"$SUI_CONFIG\" ]; then\n                            echo \"\u26a0\ufe0f  Deployment verification skipped: No SUI_CONFIG provided\"\n                            exit 0\n                        fi\n                        \n                        \x23 Get the latest transaction status\n                        echo \"Checking recent transactions...\"\n                        sui client transactions --limit 5 || true\n                        \n                        LATEST_TX=$(sui client transactions --limit 1 | tail -n 1 | awk \x27\x7bprint $1\x7d\x27 2>/dev/null || echo \"\")\n                        if [ -n \"$LATEST_TX\" ] && [ \"$LATEST_TX\" != \"digest\" ]; then\n                            echo \"Verifying transaction: $LATEST_TX\"\n                            \x23 Check transaction status\n                            if sui client transaction \"$LATEST_TX\" | grep -q \"Status.*Success\"; then\n                                echo \"\u2705 Deployment verified successfully\"\n                            else\n                                echo \"\u274c Deployment verification failed\"\n                                sui client transaction \"$LATEST_TX\" || true\n                                exit 1\n                            fi\n                        else\n                            echo \"\u26a0\ufe0f  No recent transaction found to verify, but deployment may have succeeded\"\n                            echo \"Check the Sui explorer for your package deployment\"\n                        fi\n                    ")]

def generate_env_setup (config : Config) : Value :=
  Value.dict [("name", Value.str "Build and Deploy"),
    ("runs-on", Value.str "$\x7b\x7b matrix.os \x7d\x7d"),
    ("strategy", Value.dict [("matrix", Value.dict [("os", Value.list [Value.str "ubuntu-latest"]), ("rust", Value.list [Value.str "stable"])])]),
    ("steps", Value.list [generate_env_setup_step_0, generate_env_setup_step_1, generate_env_setup_step_2, generate_env_setup_step_3, generate_env_setup_step_4, generate_env_setup_step_5, generate_env_setup_step_6, generate_env_setup_step_7])]

def generate_workflow (config : Config) : Value :=
  Value.dict [("name", Value.str "Sui Smart Contract CI/CD"),
    ("on", Value.dict [
      ("push", Value.dict [("branches", Value.list [Value.str "main", Value.str "develop"])]),
      ("pull_request", Value.dict [("branches", Value.list [Value.str "main", Value.str "develop"])])]),
    ("env", Value.dict [("RUST_BACKTRACE", Value.str "1"), ("SUI_LOG_LEVEL", Value.str "info"), ("SUI_BRANCH", Value.str "devnet")]),
    ("jobs", Value.dict [("build-and-deploy", generate_env_setup config)])]

def detect_project_structure (config : Config) (fs : FS) : ProjectStructure :=
  probeStructure (projectRootPath config) fs

def save_workflow (config : Config) (workflow : Value) (fs : FS) : Except Err FS :=
  match mkdirParents (workflowDir config) fs with
  | Except.error e => Except.error e
  | Except.ok fs1 =>
    openWrite (workflowDir config ++ ["sui-ci.yml"]) (FileData.text (yamlDump workflow)) fs1

def mainRun (a : Args) (fs : FS) : Except Err String × FS :=
  match mergedConfig a fs with
  | Except.error e => (Except.error e, fs)
  | Except.ok config =>
    match save_workflow config (generate_workflow config) fs with
    | Except.error e => (Except.error e, fs)
    | Except.ok fs1 =>
      (Except.ok "Successfully generated CI/CD workflow at .github/workflows/sui-ci.yml", fs1)

end Src

/-- One step of navigation into a value: a mapping key or a sequence index. -/
inductive PathKey where
  | key : String → PathKey
  | idx : Nat → PathKey

/-- Navigate a value along a chain of keys and indices. -/
def getPath : Value → List PathKey → Option Value
  | v, [] => some v
  | Value.dict es, PathKey.key k :: ks =>
    (match lookup k es with
     | some w => getPath w ks
     | none => none)
  | Value.list vs, PathKey.idx n :: ks =>
    (match vs.get? n with
     | some w => getPath w ks
     | none => none)
  | _, _ => none

/-- The names of the stages under the `jobs` key of a document. -/
def jobsKeys (v : Value) : List String :=
  match getPath v [PathKey.key "jobs"] with
  | some (Value.dict js) => js.map Prod.fst
  | _ => []

/-- The conditional-execution guard attached to the deployment steps. -/
def deployGuard : String :=
  "github.ref == \x27refs/heads/main\x27 && github.event_name == \x27push\x27"

/-- A directory entry (file or directory) exists at `p`. -/
def entryExists (fs : FS) (p : Path) : Prop :=
  p ∈ fs.dirs ∨ p ∈ fs.files.map Prod.fst

/-- Directory `d` exists and holds at least one entry, of either kind,
whose name ends in `.move`. -/
def moveEntryIn (fs : FS) (d : Path) : Prop :=
  d ∈ fs.dirs ∧ ∃ n, entryExists fs (d ++ [n]) ∧ isMoveName n = true

theorem getPath_append (ks ks2 : List PathKey) (v : Value) :
    getPath v (ks ++ ks2) = (getPath v ks).bind (fun u => getPath u ks2) := by
  induction ks generalizing v with
  | nil => simp [getPath]
  | cons a ks ih =>
    cases v with
    | str s => cases a <;> simp [getPath]
    | bool b => cases a <;> simp [getPath]
    | list vs =>
      cases a with
      | key k => simp [getPath]
      | idx n =>
        simp only [List.cons_append, getPath]
        cases vs.get? n with
        | none => simp
        | some w => simp [ih]
    | dict es =>
      cases a with
      | idx n => simp [getPath]
      | key k =>
        simp only [List.cons_append, getPath]
        cases lookup k es with
        | none => simp
        | some w => simp [ih]

theorem infixAppendLeft {α : Type} {l m : List α} (x : List α) (h : l <:+: m) :
    l <:+: x ++ m := by
  obtain ⟨s, t, rfl⟩ := h
  exact ⟨x ++ s, t, by simp⟩

theorem infixAppendRight {α : Type} {l m : List α} (x : List α) (h : l <:+: m) :
    l <:+: m ++ x := by
  obtain ⟨s, t, rfl⟩ := h
  exact ⟨s, t ++ x, by simp⟩

theorem infixCons {α : Type} {l m : List α} (a : α) (h : l <:+: m) : l <:+: a :: m :=
  infixAppendLeft [a] h

theorem entryLines_infix_of_lookup (fuel i : Nat) (k : String) (v : Value)
    (es : List (String × Value)) (h : lookup k es = some v) :
    entryLines fuel i k v <:+: dumpLines (fuel + 1) i (Value.dict es) := by
  induction es with
  | nil => simp [lookup] at h
  | cons e es ih =>
    rw [dumpLines_dict, List.flatMap_cons]
    by_cases hk : e.1 = k
    · rw [lookup, if_pos hk] at h
      obtain rfl : e.2 = v := by injection h
      subst hk
      exact infixAppendRight _ ⟨[], [], by simp⟩
    · rw [lookup, if_neg hk] at h
      rw [← dumpLines_dict]
      exact infixAppendLeft _ (ih h)

theorem itemLines_infix_of_mem (fuel i : Nat) (v : Value) (vs : List Value)
    (h : v ∈ vs) :
    itemLines fuel i v <:+: dumpLines (fuel + 1) i (Value.list vs) := by
  induction vs with
  | nil => simp at h
  | cons w vs ih =>
    rw [dumpLines_list, List.flatMap_cons]
    rcases List.mem_cons.mp h with rfl | hmem
    · exact infixAppendRight _ ⟨[], [], by simp⟩
    · rw [← dumpLines_list]
      exact infixAppendLeft _ (ih hmem)

theorem dump_infix_entryLines (fuel i : Nat) (k : String) (v : Value)
    (hv : isInline v = false) :
    dumpLines fuel (i + 1) v <:+: entryLines fuel i k v := by
  rw [entryLines, hv]
  exact ⟨[(i, entryHead k v)], [], by simp⟩

theorem dump_infix_itemLines (fuel i : Nat) (v : Value)
    (hv : isInline v = false) :
    dumpLines fuel (i + 1) v <:+: itemLines fuel i v := by
  rw [itemLines, hv]
  exact ⟨[(i, itemHead v)], [], by simp⟩

theorem isInline_of_chain (u w : Value) (b : PathKey) (ks : List PathKey)
    (h : getPath u (b :: ks) = some w) : isInline u = false := by
  cases u with
  | str s => cases b <;> simp [getPath] at h
  | bool v => cases b <;> simp [getPath] at h
  | list vs => rfl
  | dict es => rfl

theorem dump_infix_getPath (ks : List PathKey) (v w : Value) (fuel i : Nat)
    (h : getPath v ks = some w) (hw : isInline w = false) :
    dumpLines (fuel + 1) (i + ks.length) w <:+: dumpLines (fuel + 1 + ks.length) i v := by
  induction ks generalizing v fuel i with
  | nil =>
    simp only [getPath, Option.some.injEq] at h
    subst h
    simpa using List.infix_refl _
  | cons a ks ih =>
    cases v with
    | str s => cases a <;> simp [getPath] at h
    | bool b => cases a <;> simp [getPath] at h
    | list vs =>
      cases a with
      | key k => simp [getPath] at h
      | idx n =>
        simp only [getPath] at h
        cases hn : vs.get? n with
        | none => rw [hn] at h; simp at h
        | some u =>
          rw [hn] at h
          have hmem : u ∈ vs := List.get?_mem hn
          have hu : isInline u = false := by
            cases ks with
            | nil =>
              simp only [getPath, Option.some.injEq] at h
              subst h; exact hw
            | cons b ks2 => exact isInline_of_chain u w b ks2 h
          have h1 : dumpLines (fuel + ks.length + 1) (i + 1) u <:+:
              dumpLines (fuel + ks.length + 1 + 1) i (Value.list vs) :=
            (dump_infix_itemLines (fuel + ks.length + 1) i u hu).trans
              (itemLines_infix_of_mem (fuel + ks.length + 1) i u vs hmem)
          have h2 : dumpLines (fuel + 1) ((i + 1) + ks.length) w <:+:
              dumpLines (fuel + 1 + ks.length) (i + 1) u := ih u fuel (i + 1) h
          have e1 : fuel + 1 + ks.length = fuel + ks.length + 1 := by omega
          rw [e1] at h2
          simp only [List.length_cons]
          have e2 : i + (ks.length + 1) = (i + 1) + ks.length := by omega
          have e3 : fuel + 1 + (ks.length + 1) = fuel + ks.length + 1 + 1 := by omega
          rw [e2, e3]
          exact h2.trans h1
    | dict es =>
      cases a with
      | idx n => simp [getPath] at h
      | key k =>
        simp only [getPath] at h
        cases hn : lookup k es with
        | none => rw [hn] at h; simp at h
        | some u =>
          rw [hn] at h
          have hu : isInline u = false := by
            cases ks with
            | nil =>
              simp only [getPath, Option.some.injEq] at h
              subst h; exact hw
            | cons b ks2 => exact isInline_of_chain u w b ks2 h
          have h1 : dumpLines (fuel + ks.length + 1) (i + 1) u <:+:
              dumpLines (fuel + ks.length + 1 + 1) i (Value.dict es) :=
            (dump_infix_entryLines (fuel + ks.length + 1) i k u hu).trans
              (entryLines_infix_of_lookup (fuel + ks.length + 1) i k u es hn)
          have h2 : dumpLines (fuel + 1) ((i + 1) + ks.length) w <:+:
              dumpLines (fuel + 1 + ks.length) (i + 1) u := ih u fuel (i + 1) h
          have e1 : fuel + 1 + ks.length = fuel + ks.length + 1 := by omega
          rw [e1] at h2
          simp only [List.length_cons]
          have e2 : i + (ks.length + 1) = (i + 1) + ks.length := by omega
          have e3 : fuel + 1 + (ks.length + 1) = fuel + ks.length + 1 + 1 := by omega
          rw [e2, e3]
          exact h2.trans h1

@[simp]
theorem data_append (a b : String) : (a ++ b).data = a.data ++ b.data := rfl

@[simp]
theorem data_mk (l : List Char) : (String.mk l).data = l := rfl

theorem renderAll_append (a b : List Line) :
    renderAll (a ++ b) = renderAll a ++ renderAll b := by
  induction a with
  | nil => simp [renderAll]
  | cons l a ih => simp [renderAll, ih]

theorem renderAll_infix {a b : List Line} (h : a <:+: b) :
    renderAll a <:+: renderAll b := by
  obtain ⟨s, t, rfl⟩ := h
  rw [renderAll_append, renderAll_append]
  exact ⟨renderAll s, renderAll t, rfl⟩

theorem str_infix_renderLine (d : Nat) (pre s : String) :
    s.data <:+: renderAll [(d, pre ++ s)] := by
  refine ⟨List.replicate (2 * d) ' ' ++ pre.data, "\n".data, ?_⟩
  simp [renderAll, renderLine]

theorem guard_infix_of_getPath (F fuel i : Nat) (ks : List PathKey) (k s : String) (v : Value)
    (hF : F = fuel + 1 + ks.length)
    (h : getPath v (ks ++ [PathKey.key k]) = some (Value.str s))
    (hs : s.data.contains '\n' = false) :
    s.data <:+: renderAll (dumpLines F i v) := by
  subst hF
  rw [getPath_append] at h
  cases hu : getPath v ks with
  | none => rw [hu] at h; simp at h
  | some u =>
    rw [hu] at h
    simp only [Option.some_bind] at h
    cases u with
    | str s2 => simp [getPath] at h
    | bool b => simp [getPath] at h
    | list vs => simp [getPath] at h
    | dict es =>
      simp only [getPath] at h
      cases hl : lookup k es with
      | none => rw [hl] at h; simp at h
      | some w =>
        rw [hl] at h
        simp only [getPath, Option.some.injEq] at h
        subst h
        have h1 := dump_infix_getPath ks v (Value.dict es) fuel i hu rfl
        have h2 := entryLines_infix_of_lookup fuel (i + ks.length) k (Value.str s) es hl
        have hs2 : ('\n') ∉ s.data := by simpa using hs
        have hinl : isInline (Value.str s) = true := by
          simp [isInline, hs2]
        have h3 : entryLines fuel (i + ks.length) k (Value.str s) =
            [(i + ks.length, (k ++ ": ") ++ s)] := by
          rw [entryLines, hinl]
          simp [inlineText]
        rw [h3] at h2
        have h4 := renderAll_infix (h2.trans h1)
        exact (str_infix_renderLine (i + ks.length) (k ++ ": ") s).trans h4

/-- A default configuration as built by `main` with no flags: project root
is the current directory and deployment is disabled. -/
def defaultConfig : Config :=
  [("project_root", Value.str "."), ("enable_deployment", Value.bool false)]

/-- Claim C1 as stated is false on the `src/src` variant: for the default
configuration, its `generate_workflow` emits a single stage named
`build-and-deploy` under `jobs`, not the four stages build, test,
security-analysis, deploy. -/
theorem c1_counterexample :
    jobsKeys (Src.generate_workflow defaultConfig) = ["build-and-deploy"]
    ∧ (jobsKeys (Src.generate_workflow defaultConfig)).length ≠ 4 := by
  exact ⟨rfl, by decide⟩

/-- Claim C1 (amended): in the `sui-cicd-design` variant, for every
configuration, the document has exactly the four stages build, test,
security, deploy under `jobs`; test and security each list build as their
dependency; deploy lists both test and security.  The `src/src` variant
instead emits the single combined stage `build-and-deploy`. -/
theorem c1_four_stages (config : Config) :
    jobsKeys (Design.generate_workflow config) = ["build", "test", "security", "deploy"]
    ∧ getPath (Design.generate_workflow config)
        [PathKey.key "jobs", PathKey.key "test", PathKey.key "needs"] = some (Value.str "build")
    ∧ getPath (Design.generate_workflow config)
        [PathKey.key "jobs", PathKey.key "security", PathKey.key "needs"] = some (Value.str "build")
    ∧ getPath (Design.generate_workflow config)
        [PathKey.key "jobs", PathKey.key "deploy", PathKey.key "needs"] =
        some (Value.list [Value.str "test", Value.str "security"])
    ∧ jobsKeys (Src.generate_workflow config) = ["build-and-deploy"] :=
  ⟨rfl, rfl, rfl, rfl, rfl⟩

/-- Claim C3: in both variants the deployment steps carry the
conditional-execution guard naming the main branch and the push event,
and the guard string occurs verbatim in the serialised output. -/
theorem c3_deploy_guard (config : Config) :
    getPath (Design.generate_workflow config)
        [PathKey.key "jobs", PathKey.key "deploy", PathKey.key "if"] =
        some (Value.str deployGuard)
    ∧ deployGuard.data <:+: (yamlDump (Design.generate_workflow config)).data
    ∧ getPath (Src.generate_workflow config)
        [PathKey.key "jobs", PathKey.key "build-and-deploy", PathKey.key "steps", PathKey.idx 4,
         PathKey.key "if"] = some (Value.str deployGuard)
    ∧ getPath (Src.generate_workflow config)
        [PathKey.key "jobs", PathKey.key "build-and-deploy", PathKey.key "steps", PathKey.idx 6,
         PathKey.key "if"] = some (Value.str deployGuard)
    ∧ deployGuard.data <:+: (yamlDump (Src.generate_workflow config)).data := by
  refine ⟨rfl, ?_, rfl, rfl, ?_⟩
  · exact guard_infix_of_getPath 32 29 0 [PathKey.key "jobs", PathKey.key "deploy"]
      "if" deployGuard (Design.generate_workflow config) (by decide) rfl (by decide)
  · exact guard_infix_of_getPath 32 27 0
      [PathKey.key "jobs", PathKey.key "build-and-deploy", PathKey.key "steps", PathKey.idx 4]
      "if" deployGuard (Src.generate_workflow config) (by decide) rfl (by decide)

/-- Claim C5: document generation is a pure function of the configuration,
in both variants: identical inputs give equal documents and byte-identical
serialisations. -/
theorem c5_deterministic (c1 c2 : Config) (h : c1 = c2) :
    Design.generate_workflow c1 = Design.generate_workflow c2
    ∧ yamlDump (Design.generate_workflow c1) = yamlDump (Design.generate_workflow c2)
    ∧ Src.generate_workflow c1 = Src.generate_workflow c2
    ∧ yamlDump (Src.generate_workflow c1) = yamlDump (Src.generate_workflow c2) := by
  subst h
  exact ⟨rfl, rfl, rfl, rfl⟩

theorem c5_deterministic_witness :
    defaultConfig = defaultConfig
    ∧ (Design.generate_workflow defaultConfig = Design.generate_workflow defaultConfig
      ∧ yamlDump (Design.generate_workflow defaultConfig) =
          yamlDump (Design.generate_workflow defaultConfig)
      ∧ Src.generate_workflow defaultConfig = Src.generate_workflow defaultConfig
      ∧ yamlDump (Src.generate_workflow defaultConfig) =
          yamlDump (Src.generate_workflow defaultConfig)) :=
  ⟨rfl, c5_deterministic defaultConfig defaultConfig rfl⟩

/-- Claim C9: configurations that agree outside the `enable_deployment`
key produce equal documents in both variants; neither `generate_workflow`
reads the configuration when assembling the document. -/
theorem c9_enable_deployment_irrelevant (c1 c2 : Config)
    (h : ∀ k : String, k ≠ "enable_deployment" → lookup k c1 = lookup k c2) :
    Design.generate_workflow c1 = Design.generate_workflow c2
    ∧ Src.generate_workflow c1 = Src.generate_workflow c2 :=
  ⟨rfl, rfl⟩

theorem c9_enable_deployment_irrelevant_witness :
    (∀ k : String, k ≠ "enable_deployment" →
      lookup k [("enable_deployment", Value.bool true)] =
        lookup k [("enable_deployment", Value.bool false)])
    ∧ (Design.generate_workflow [("enable_deployment", Value.bool true)] =
        Design.generate_workflow [("enable_deployment", Value.bool false)]
      ∧ Src.generate_workflow [("enable_deployment", Value.bool true)] =
        Src.generate_workflow [("enable_deployment", Value.bool false)]) := by
  refine ⟨?_, c9_enable_deployment_irrelevant _ _ ?_⟩ <;>
    · intro k hk
      have hne : "enable_deployment" ≠ k := fun h => hk h.symm
      simp [lookup, hne]

/-- Claim C10: in the four-stage variant the dependency field is not
uniformly a list: the test and security jobs set `needs` to the bare
string build, while the deploy job sets `needs` to the two-element list
of the names test and security. -/
theorem c10_needs_shapes (config : Config) :
    getPath (Design.generate_test_job config) [PathKey.key "needs"] = some (Value.str "build")
    ∧ getPath (Design.generate_security_job config) [PathKey.key "needs"] = some (Value.str "build")
    ∧ getPath (Design.generate_deploy_job config) [PathKey.key "needs"] =
        some (Value.list [Value.str "test", Value.str "security"])
    ∧ (∀ l : List Value, Value.str "build" ≠ Value.list l) :=
  ⟨rfl, rfl, rfl, fun l h => Value.noConfusion h⟩

/-- Claim C2: a config-file value overrides the CLI value for the same
key: whatever the `--enable-deployment` flag was, a config file holding
`enable_deployment: true` makes the merged configuration carry `true`. -/
theorem c2_config_file_wins (pr : String) (flag : Bool) (p : Path) (fs : FS)
    (h : lookupFile p fs = some (FileData.jsonObj [("enable_deployment", Value.bool true)])) :
    mergedConfig ⟨some p, pr, flag⟩ fs =
      Except.ok [("project_root", Value.str pr), ("enable_deployment", Value.bool true)]
    ∧ lookup "enable_deployment"
        [("project_root", Value.str pr), ("enable_deployment", Value.bool true)] =
      some (Value.bool true) := by
  constructor
  · simp [mergedConfig, h, dictUpdate, setItem]
  · rfl

theorem c2_config_file_wins_witness :
    lookupFile ["cfg.json"]
        ⟨[], [(["cfg.json"], FileData.jsonObj [("enable_deployment", Value.bool true)])]⟩ =
      some (FileData.jsonObj [("enable_deployment", Value.bool true)])
    ∧ (mergedConfig ⟨some ["cfg.json"], ".", false⟩
          ⟨[], [(["cfg.json"], FileData.jsonObj [("enable_deployment", Value.bool true)])]⟩ =
        Except.ok [("project_root", Value.str "."), ("enable_deployment", Value.bool true)]
      ∧ lookup "enable_deployment"
          [("project_root", Value.str "."), ("enable_deployment", Value.bool true)] =
        some (Value.bool true)) :=
  ⟨rfl, c2_config_file_wins "." false ["cfg.json"] _ rfl⟩

/-- Claim C8: when the supplied config file is missing or does not parse
as JSON, both variants abort with an error before producing any output:
the filesystem is returned unchanged, so no directory is created and no
file is written. -/
theorem c8_bad_config_aborts (a : Args) (fs : FS) (p : Path)
    (hp : a.config = some p)
    (h : lookupFile p fs = none ∨ ∃ s, lookupFile p fs = some (FileData.text s)) :
    (∃ e, Design.mainRun a fs = (Except.error e, fs))
    ∧ (∃ e, Src.mainRun a fs = (Except.error e, fs)) := by
  obtain ⟨c, pr, flag⟩ := a
  simp only at hp
  subst hp
  rcases h with h | ⟨str, h⟩
  · have hm : mergedConfig ⟨some p, pr, flag⟩ fs = Except.error Err.fileNotFound := by
      simp [mergedConfig, h]
    refine ⟨⟨Err.fileNotFound, ?_⟩, ⟨Err.fileNotFound, ?_⟩⟩
    · unfold Design.mainRun
      rw [hm]
    · unfold Src.mainRun
      rw [hm]
  · have hm : mergedConfig ⟨some p, pr, flag⟩ fs = Except.error Err.jsonDecodeError := by
      simp [mergedConfig, h]
    refine ⟨⟨Err.jsonDecodeError, ?_⟩, ⟨Err.jsonDecodeError, ?_⟩⟩
    · unfold Design.mainRun
      rw [hm]
    · unfold Src.mainRun
      rw [hm]

theorem c8_bad_config_aborts_witness :
    (Args.mk (some ["missing.json"]) "." false).config = some ["missing.json"]
    ∧ (lookupFile ["missing.json"] ⟨[], []⟩ = none
      ∨ ∃ s, lookupFile ["missing.json"] ⟨[], []⟩ = some (FileData.text s))
    ∧ ((∃ e, Design.mainRun ⟨some ["missing.json"], ".", false⟩ ⟨[], []⟩ =
          (Except.error e, (⟨[], []⟩ : FS)))
      ∧ (∃ e, Src.mainRun ⟨some ["missing.json"], ".", false⟩ ⟨[], []⟩ =
          (Except.error e, (⟨[], []⟩ : FS)))) :=
  ⟨rfl, Or.inl rfl,
    c8_bad_config_aborts ⟨some ["missing.json"], ".", false⟩ ⟨[], []⟩ ["missing.json"] rfl
      (Or.inl rfl)⟩

theorem childOf_eq_some {d p : Path} {n : String} :
    childOf d p = some n ↔ p = d ++ [n] := by
  constructor
  · intro h
    unfold childOf at h
    split at h
    next m heq =>
      split at h
      next ht =>
        injection h with h
        subst h
        conv_lhs => rw [← List.take_append_drop d.length p]
        rw [ht, heq]
      next => exact absurd h (by simp)
    next => exact absurd h (by simp)
  · rintro rfl
    unfold childOf
    rw [List.drop_left, List.take_left]
    simp

theorem mem_childNames {fs : FS} {d : Path} {n : String} :
    n ∈ childNames fs d ↔ entryExists fs (d ++ [n]) := by
  unfold childNames entryExists
  rw [List.mem_filterMap]
  constructor
  · rintro ⟨p, hp, hc⟩
    rw [childOf_eq_some] at hc
    subst hc
    exact List.mem_append.mp hp
  · intro h
    exact ⟨d ++ [n], List.mem_append.mpr h, childOf_eq_some.mpr rfl⟩

theorem globMove_nonempty_iff {fs : FS} {d : Path} :
    (!(globMove fs d).isEmpty) = true ↔ moveEntryIn fs d := by
  unfold globMove moveEntryIn
  by_cases hd : d ∈ fs.dirs
  · rw [if_pos (by simpa using hd)]
    constructor
    · intro h
      have hne : (childNames fs d).filter isMoveName ≠ [] := by
        simpa [List.isEmpty_iff] using h
      obtain ⟨n, hn⟩ := List.exists_mem_of_ne_nil _ hne
      have hn2 := List.mem_filter.mp hn
      exact ⟨hd, n, mem_childNames.mp hn2.1, hn2.2⟩
    · rintro ⟨_, n, hmem, hmv⟩
      have hn : n ∈ (childNames fs d).filter isMoveName :=
        List.mem_filter.mpr ⟨mem_childNames.mpr hmem, hmv⟩
      have hne : (childNames fs d).filter isMoveName ≠ [] := by
        intro hnil
        rw [hnil] at hn
        exact absurd hn (List.not_mem_nil n)
      simpa [List.isEmpty_iff] using hne
  · rw [if_neg (by simpa using hd)]
    constructor
    · intro h
      simp at h
    · rintro ⟨hc, -⟩
      exact absurd hc hd

/-- Claim C6 as stated is false on the code: in a filesystem whose `tests`
directory holds a single subdirectory named `foo.move` and no files at
all, `detect_project_structure` reports `has_tests = true` although no
*file* matching `*.move` exists. -/
theorem c6_counterexample :
    (Design.detect_project_structure defaultConfig
        ⟨[[], ["tests"], ["tests", "foo.move"]], []⟩).has_tests = true
    ∧ (FS.mk [[], ["tests"], ["tests", "foo.move"]] []).files = [] :=
  ⟨by decide, rfl⟩

/-- Claim C6 (amended): the probe flags match directory-entry existence,
not file existence: `has_move_toml` is true exactly when an entry (file or
directory) named `Move.toml` exists at the project root, and `has_tests`
and `has_sources` are true exactly when the respective subdirectory exists
and holds at least one entry, of either kind, whose name matches `*.move`;
on an empty directory all three flags are false.  Both variants share the
same probe. -/
theorem c6_probe_characterisation (config : Config) (fs : FS) :
    Src.detect_project_structure config fs = Design.detect_project_structure config fs
    ∧ ((Design.detect_project_structure config fs).has_move_toml = true ↔
        entryExists fs (projectRootPath config ++ ["Move.toml"]))
    ∧ ((Design.detect_project_structure config fs).has_tests = true ↔
        moveEntryIn fs (projectRootPath config ++ ["tests"]))
    ∧ ((Design.detect_project_structure config fs).has_sources = true ↔
        moveEntryIn fs (projectRootPath config ++ ["sources"]))
    ∧ (∀ root : Path, probeStructure root ⟨[root], []⟩ =
        ⟨false, false, false⟩) := by
  refine ⟨rfl, ?_, globMove_nonempty_iff, globMove_nonempty_iff, ?_⟩
  · exact decide_eq_true_iff
  · intro root
    have h1 : ∀ x : String, root ++ [x] ∉ ([root] : List Path) := by
      intro x hx
      rw [List.mem_singleton] at hx
      have := congrArg List.length hx
      simp at this
    have hmt : pexists ⟨[root], []⟩ (root ++ ["Move.toml"]) = false := by
      apply decide_eq_false
      rintro (hc | hc)
      · exact h1 _ hc
      · simp at hc
    have hts : globMove ⟨[root], []⟩ (root ++ ["tests"]) = [] := by
      unfold globMove
      rw [if_neg]
      simp only [decide_eq_true_eq]
      exact h1 "tests"
    have hsc : globMove ⟨[root], []⟩ (root ++ ["sources"]) = [] := by
      unfold globMove
      rw [if_neg]
      simp only [decide_eq_true_eq]
      exact h1 "sources"
    simp [probeStructure, hmt, hts, hsc]

/-- Claim C7: the structure probe is a total pure function; in particular
for a project root under which no directory entry exists at all, every
flag is false rather than an error, in both variants. -/
theorem c7_probe_total (config : Config) (fs : FS)
    (h : ∀ q : Path, (q ∈ fs.dirs ∨ q ∈ fs.files.map Prod.fst) →
      ¬ projectRootPath config <+: q) :
    Design.detect_project_structure config fs = ⟨false, false, false⟩
    ∧ Src.detect_project_structure config fs = ⟨false, false, false⟩ := by
  have hmt : pexists fs (projectRootPath config ++ ["Move.toml"]) = false := by
    apply decide_eq_false
    intro hc
    exact h _ hc (List.prefix_append _ _)
  have hdir : ∀ x : String, projectRootPath config ++ [x] ∉ fs.dirs := by
    intro x hx
    exact h _ (Or.inl hx) (List.prefix_append _ _)
  have hts : globMove fs (projectRootPath config ++ ["tests"]) = [] := by
    unfold globMove
    rw [if_neg]
    simp only [decide_eq_true_eq]
    exact hdir "tests"
  have hsc : globMove fs (projectRootPath config ++ ["sources"]) = [] := by
    unfold globMove
    rw [if_neg]
    simp only [decide_eq_true_eq]
    exact hdir "sources"
  constructor <;>
    simp [Design.detect_project_structure, Src.detect_project_structure, probeStructure,
      hmt, hts, hsc]

theorem c7_probe_total_witness :
    (∀ q : Path,
      (q ∈ (FS.mk [] []).dirs ∨ q ∈ (FS.mk [] []).files.map Prod.fst) →
      ¬ projectRootPath defaultConfig <+: q)
    ∧ (Design.detect_project_structure defaultConfig ⟨[], []⟩ = ⟨false, false, false⟩
      ∧ Src.detect_project_structure defaultConfig ⟨[], []⟩ = ⟨false, false, false⟩) := by
  have h : ∀ q : Path,
      (q ∈ (FS.mk [] []).dirs ∨ q ∈ (FS.mk [] []).files.map Prod.fst) →
      ¬ projectRootPath defaultConfig <+: q := by
    intro q hq
    rcases hq with hq | hq
    · exact absurd hq (List.not_mem_nil q)
    · exact absurd hq (by simp)
  exact ⟨h, c7_probe_total defaultConfig ⟨[], []⟩ h⟩

theorem string_append_assoc (a b c : String) : (a ++ b) ++ c = a ++ (b ++ c) :=
  congrArg String.mk (List.append_assoc a.data b.data c.data)

theorem indent_lb (fuel : Nat) : ∀ (i : Nat) (v : Value) (l : Line),
    l ∈ dumpLines fuel i v → i ≤ l.1 := by
  induction fuel with
  | zero =>
    intro i v l h
    simp [dumpLines] at h
  | succ fuel ih =>
    intro i v l h
    cases v with
    | str s =>
      simp only [dumpLines] at h
      rw [List.mem_map] at h
      obtain ⟨ln, hln, rfl⟩ := h
      exact le_refl i
    | bool b =>
      simp only [dumpLines, List.mem_singleton] at h
      subst h
      exact le_refl i
    | list vs =>
      simp only [dumpLines] at h
      rw [List.mem_flatMap] at h
      obtain ⟨v, hv, hl⟩ := h
      by_cases hi : isInline v = true
      · rw [if_pos hi, List.mem_singleton] at hl
        subst hl
        exact le_refl i
      · rw [if_neg hi, List.mem_cons] at hl
        rcases hl with rfl | hl
        · exact le_refl i
        · exact Nat.le_of_succ_le (ih (i + 1) v l hl)
    | dict es =>
      simp only [dumpLines] at h
      rw [List.mem_flatMap] at h
      obtain ⟨e, he, hl⟩ := h
      by_cases hi : isInline e.2 = true
      · rw [if_pos hi, List.mem_singleton] at hl
        subst hl
        exact le_refl i
      · rw [if_neg hi, List.mem_cons] at hl
        rcases hl with rfl | hl
        · exact le_refl i
        · exact Nat.le_of_succ_le (ih (i + 1) e.2 l hl)

theorem topKeys_append (a b : List Line) : topKeys (a ++ b) = topKeys a ++ topKeys b :=
  List.filterMap_append a b _

theorem topKeys_zero_cons (t : String) (ls : List Line) :
    topKeys ((0, t) :: ls) = keyPart t :: topKeys ls := by
  simp [topKeys]

theorem topKeys_nil_of_pos {ls : List Line} (h : ∀ l ∈ ls, 1 ≤ l.1) : topKeys ls = [] := by
  induction ls with
  | nil => rfl
  | cons l ls ih =>
    unfold topKeys
    rw [List.filterMap_cons, if_neg]
    · exact ih (fun x hx => h x (List.mem_cons_of_mem l hx))
    · have := h l (List.mem_cons_self l ls)
      omega

theorem takeWhile_append_of_all {p : Char → Bool} {a : List Char} (b : List Char)
    (h : ∀ c ∈ a, p c = true) : (a ++ b).takeWhile p = a ++ b.takeWhile p := by
  induction a with
  | nil => simp
  | cons c a ih =>
    simp [List.takeWhile_cons, h c (List.mem_cons_self c a),
      ih (fun x hx => h x (List.mem_cons_of_mem c hx))]

theorem keyPart_append_colon (k r : String) (hk : goodKey k)
    (hr : ∃ t, r.data = ':' :: t) : keyPart (k ++ r) = k := by
  obtain ⟨t, ht⟩ := hr
  unfold keyPart
  rw [data_append, @takeWhile_append_of_all _ k.data r.data
    (fun c hc => decide_eq_true (show c ≠ ':' from fun e => hk (e ▸ hc))), ht,
    List.takeWhile_cons]
  simp

theorem keyPart_entryHead (k : String) (v : Value) (hk : goodKey k) :
    keyPart (entryHead k v) = k := by
  cases v with
  | str s => exact keyPart_append_colon k ": |-" hk ⟨[' ', '|', '-'], rfl⟩
  | bool b => exact keyPart_append_colon k ":" hk ⟨[], rfl⟩
  | list vs => exact keyPart_append_colon k ":" hk ⟨[], rfl⟩
  | dict es => exact keyPart_append_colon k ":" hk ⟨[], rfl⟩

theorem topKeys_dump (fuel : Nat) (es : List (String × Value))
    (h : ∀ e ∈ es, goodKey e.1) :
    topKeys (dumpLines (fuel + 1) 0 (Value.dict es)) = es.map Prod.fst := by
  induction es with
  | nil => rfl
  | cons e es ih =>
    rw [dumpLines_dict, List.flatMap_cons, topKeys_append, ← dumpLines_dict,
      ih (fun x hx => h x (List.mem_cons_of_mem e hx))]
    have hgood : goodKey e.1 := h e (List.mem_cons_self e es)
    by_cases hi : isInline e.2 = true
    · rw [entryLines, if_pos hi, string_append_assoc, topKeys_zero_cons,
        keyPart_append_colon e.1 (": " ++ inlineText e.2) hgood
          ⟨' ' :: (inlineText e.2).data, rfl⟩]
      rfl
    · rw [entryLines, if_neg hi, topKeys_zero_cons, keyPart_entryHead e.1 e.2 hgood,
        topKeys_nil_of_pos (fun l hl => indent_lb fuel 1 e.2 l hl)]
      rfl

theorem mem_ancestors_length {d q : Path} (h : q ∈ ancestors d) : q.length ≤ d.length := by
  unfold ancestors at h
  rw [List.mem_map] at h
  obtain ⟨k, hk, rfl⟩ := h
  simp [List.length_take]

theorem target_notin_ancestors (d : Path) (nm : String) : d ++ [nm] ∉ ancestors d := by
  intro h
  have := mem_ancestors_length h
  simp at this

theorem mem_addMissing_of_mem {dirs ps : List Path} {q : Path} (h : q ∈ ps) :
    q ∈ addMissing dirs ps := by
  by_cases hq : q ∈ dirs
  · exact List.mem_append.mpr (Or.inl hq)
  · exact List.mem_append.mpr (Or.inr (List.mem_filter.mpr ⟨h, by simpa using hq⟩))

theorem mem_addMissing_elim {dirs ps : List Path} {q : Path}
    (h : q ∈ addMissing dirs ps) : q ∈ dirs ∨ q ∈ ps := by
  rcases List.mem_append.mp h with h | h
  · exact Or.inl h
  · exact Or.inr (List.mem_filter.mp h).1

theorem addMissing_eq_self {dirs ps : List Path} (h : ∀ q ∈ ps, q ∈ dirs) :
    addMissing dirs ps = dirs := by
  unfold addMissing
  have hf : ps.filter (fun q => decide (q ∉ dirs)) = [] := by
    rw [List.filter_eq_nil_iff]
    intro a ha
    simp [h a ha]
  rw [hf, List.append_nil]

theorem lookupFileIn_setFile_self (p : Path) (c : FileData)
    (l : List (Path × FileData)) : lookupFileIn p (setFile p c l) = some c := by
  induction l with
  | nil => simp [setFile, lookupFileIn]
  | cons e l ih =>
    by_cases h : e.1 = p
    · simp [setFile, h, lookupFileIn]
    · simp [setFile, h, lookupFileIn, ih]

theorem mem_keys_setFile {p q : Path} {c : FileData} {l : List (Path × FileData)} :
    q ∈ (setFile p c l).map Prod.fst ↔ q ∈ l.map Prod.fst ∨ q = p := by
  induction l with
  | nil =>
    show q ∈ [p] ↔ q ∈ ([] : List Path) ∨ q = p
    rw [List.mem_singleton]
    simp
  | cons e l ih =>
    by_cases h : e.1 = p
    · rw [setFile, if_pos h, List.map_cons, List.map_cons, List.mem_cons, List.mem_cons]
      rw [h]
      show q = p ∨ q ∈ l.map Prod.fst ↔ (q = p ∨ q ∈ l.map Prod.fst) ∨ q = p
      tauto
    · rw [setFile, if_neg h, List.map_cons, List.map_cons, List.mem_cons, List.mem_cons, ih]
      tauto

theorem setFile_idem (p : Path) (c : FileData) (l : List (Path × FileData)) :
    setFile p c (setFile p c l) = setFile p c l := by
  induction l with
  | nil => simp [setFile]
  | cons e l ih =>
    by_cases h : e.1 = p
    · simp [setFile, h]
    · simp [setFile, h, ih]

/-- Claim C4: `save_workflow` creates the output directory chain
idempotently and without error when no file blocks it, writes the
serialised document to the fixed name `sui-ci.yml` overwriting whatever
was there, both variants behave identically, and the serialisation lists
the top-level keys of a mapping in insertion order (keys are not sorted). -/
theorem c4_save_workflow (config : Config) (wf : Value) (fs : FS) (fuel : Nat)
    (es : List (String × Value))
    (h1 : ∀ q ∈ ancestors (workflowDir config), q ∉ fs.files.map Prod.fst)
    (h2 : workflowDir config ++ ["sui-ci.yml"] ∉ fs.dirs)
    (h3 : ∀ e ∈ es, goodKey e.1) :
    (∃ fs1 : FS, Design.save_workflow config wf fs = Except.ok fs1
      ∧ (∀ q ∈ ancestors (workflowDir config), q ∈ fs1.dirs)
      ∧ lookupFile (workflowDir config ++ ["sui-ci.yml"]) fs1 =
          some (FileData.text (yamlDump wf))
      ∧ Design.save_workflow config wf fs1 = Except.ok fs1)
    ∧ Src.save_workflow config wf fs = Design.save_workflow config wf fs
    ∧ topKeys (dumpLines (fuel + 1) 0 (Value.dict es)) = es.map Prod.fst := by
  refine ⟨?_, rfl, topKeys_dump fuel es h3⟩
  have hmk : mkdirParents (workflowDir config) fs =
      Except.ok ⟨addMissing fs.dirs (ancestors (workflowDir config)), fs.files⟩ := by
    unfold mkdirParents
    rw [if_neg]
    simp only [decide_eq_true_eq]
    rintro ⟨q, hq, hmem⟩
    exact h1 q hq hmem
  have htarget1 : workflowDir config ++ ["sui-ci.yml"] ∉
      addMissing fs.dirs (ancestors (workflowDir config)) := by
    intro hc
    rcases mem_addMissing_elim hc with hc | hc
    · exact h2 hc
    · exact target_notin_ancestors (workflowDir config) "sui-ci.yml" hc
  have hw : openWrite (workflowDir config ++ ["sui-ci.yml"]) (FileData.text (yamlDump wf))
      ⟨addMissing fs.dirs (ancestors (workflowDir config)), fs.files⟩ =
      Except.ok ⟨addMissing fs.dirs (ancestors (workflowDir config)),
        setFile (workflowDir config ++ ["sui-ci.yml"]) (FileData.text (yamlDump wf)) fs.files⟩ := by
    unfold openWrite
    rw [if_neg]
    simp only [decide_eq_true_eq]
    exact htarget1
  refine ⟨⟨addMissing fs.dirs (ancestors (workflowDir config)),
      setFile (workflowDir config ++ ["sui-ci.yml"]) (FileData.text (yamlDump wf)) fs.files⟩,
    ?_, ?_, ?_, ?_⟩
  · unfold Design.save_workflow
    rw [hmk]
    exact hw
  · intro q hq
    exact mem_addMissing_of_mem hq
  · exact lookupFileIn_setFile_self _ _ _
  · have hmk2 : mkdirParents (workflowDir config)
        ⟨addMissing fs.dirs (ancestors (workflowDir config)),
          setFile (workflowDir config ++ ["sui-ci.yml"]) (FileData.text (yamlDump wf)) fs.files⟩ =
        Except.ok ⟨addMissing (addMissing fs.dirs (ancestors (workflowDir config)))
            (ancestors (workflowDir config)),
          setFile (workflowDir config ++ ["sui-ci.yml"]) (FileData.text (yamlDump wf)) fs.files⟩ := by
      unfold mkdirParents
      rw [if_neg]
      simp only [decide_eq_true_eq]
      rintro ⟨q, hq, hmem⟩
      rcases mem_keys_setFile.mp hmem with hmem | rfl
      · exact h1 q hq hmem
      · exact target_notin_ancestors (workflowDir config) "sui-ci.yml" hq
    have hdirs : addMissing (addMissing fs.dirs (ancestors (workflowDir config)))
        (ancestors (workflowDir config)) =
        addMissing fs.dirs (ancestors (workflowDir config)) :=
      addMissing_eq_self (fun q hq => mem_addMissing_of_mem hq)
    unfold Design.save_workflow
    rw [hmk2, hdirs]
    show openWrite (workflowDir config ++ ["sui-ci.yml"]) (FileData.text (yamlDump wf))
        ⟨addMissing fs.dirs (ancestors (workflowDir config)),
          setFile (workflowDir config ++ ["sui-ci.yml"]) (FileData.text (yamlDump wf)) fs.files⟩ =
      Except.ok ⟨addMissing fs.dirs (ancestors (workflowDir config)),
        setFile (workflowDir config ++ ["sui-ci.yml"]) (FileData.text (yamlDump wf)) fs.files⟩
    unfold openWrite
    rw [if_neg, setFile_idem]
    simp only [decide_eq_true_eq]
    exact htarget1

theorem c4_save_workflow_witness :
    (∀ q ∈ ancestors (workflowDir defaultConfig), q ∉ (FS.mk [] []).files.map Prod.fst)
    ∧ (workflowDir defaultConfig ++ ["sui-ci.yml"] ∉ (FS.mk [] []).dirs)
    ∧ (∀ e ∈ [("name", Value.str "x"), ("jobs", Value.str "y")], goodKey e.1)
    ∧ ((∃ fs1 : FS,
        Design.save_workflow defaultConfig (Value.bool true) ⟨[], []⟩ = Except.ok fs1
        ∧ (∀ q ∈ ancestors (workflowDir defaultConfig), q ∈ fs1.dirs)
        ∧ lookupFile (workflowDir defaultConfig ++ ["sui-ci.yml"]) fs1 =
            some (FileData.text (yamlDump (Value.bool true)))
        ∧ Design.save_workflow defaultConfig (Value.bool true) fs1 = Except.ok fs1)
      ∧ Src.save_workflow defaultConfig (Value.bool true) ⟨[], []⟩ =
          Design.save_workflow defaultConfig (Value.bool true) ⟨[], []⟩
      ∧ topKeys (dumpLines (0 + 1) 0
          (Value.dict [("name", Value.str "x"), ("jobs", Value.str "y")])) =
        [("name", Value.str "x"), ("jobs", Value.str "y")].map Prod.fst) := by
  refine ⟨by decide, by decide, by decide, ?_⟩
  exact c4_save_workflow defaultConfig (Value.bool true) ⟨[], []⟩ 0
    [("name", Value.str "x"), ("jobs", Value.str "y")] (by decide) (by decide) (by decide)

end SuiCI
